import Mathlib

/-!
Verification development for the course-selling backend (`main.py`,
`schemas.py`).  The persistence layer is a Mongo-style document store:
collections are modelled as lists of (identifier, record) pairs kept in
insertion order, identifiers are the 24-hex-character string rendering of
BSON ObjectIds, and monetary values are rationals.
-/

namespace CourseApi

/-- A character admissible in a hexadecimal ObjectId string
(`0-9`, `a-f`, `A-F`). -/
def isHexChar (c : Char) : Bool :=
  c.isDigit || (97 ≤ c.toNat && c.toNat ≤ 102) || (65 ≤ c.toNat && c.toNat ≤ 70)

/-- `bson.ObjectId(s)` succeeds on a string exactly when it is 24 hexadecimal
characters. -/
def isValidObjectId (s : String) : Bool :=
  s.length == 24 && s.toList.all isHexChar

/-- Character-wise lower-casing of a string. -/
def toLowerStr (s : String) : String :=
  String.mk (s.data.map Char.toLower)

/-- `ObjectId(s)` for a 24-hex string: the constructor accepts either case and
`str` renders the id in lower case, so parsing normalises to lower case.
Returns `none` when the constructor would raise `InvalidId`. -/
def parseObjectId (s : String) : Option String :=
  if isValidObjectId s then some (toLowerStr s) else none

/-- Error taxonomy of the API surface: 422 body-validation failure, 400
malformed identifier, 404 missing document, and an uncaught exception
surfacing as a 500 server error. -/
inductive ApiError where
  | ValidationError
  | InvalidIdentifier
  | NotFound
  | ServerError
deriving Repr, DecidableEq

/-- `schemas.Course`: the validated course record.  `title` and `price` are
required (`Field(...)`), `price` carries `ge=0`, the optional text fields
default to `None`, `published` defaults to `False` and `tags` to `[]`. -/
structure Course where
  title : String
  subtitle : Option String := none
  description : Option String := none
  price : Rat
  thumbnail_url : Option String := none
  category : Option String := none
  level : Option String := none
  published : Bool := false
  tags : List String := []
deriving Repr, DecidableEq

/-- `schemas.Lesson`: `course_id` and `title` are required, `order` is an
integer with `ge=0` defaulting to `0`, `free_preview` defaults to `False`. -/
structure Lesson where
  course_id : String
  title : String
  content : Option String := none
  video_url : Option String := none
  order : Int := 0
  free_preview : Bool := false
deriving Repr, DecidableEq

/-- `schemas.Order`: all of `course_id`, `buyer_name`, `buyer_email` and
`amount` are required; `status` defaults to `"paid"`. -/
structure Order where
  course_id : String
  buyer_name : String
  buyer_email : String
  amount : Rat
  status : String := "paid"
deriving Repr, DecidableEq

/-- `main.OrderIn`: the request body of `POST /api/orders`.  It has exactly
three fields — in particular no `amount` and no `status` field exists in the
input shape. -/
structure OrderIn where
  course_id : String
  buyer_name : String
  buyer_email : String
deriving Repr, DecidableEq

/-- A stored course document: the schema fields plus the `updated_at`
timestamp that `update_course` stamps (absent until the first update). -/
structure CourseDoc where
  course : Course
  updated_at : Option Nat := none
deriving Repr, DecidableEq

/-- The document store: one collection per entity, each a list of
(identifier string, record) pairs in store-native insertion order. -/
structure Store where
  courses : List (String × CourseDoc) := []
  lessons : List (String × Lesson) := []
  orders : List (String × Order) := []
deriving Repr, DecidableEq

/-- `db["course"].find_one` by parsed ObjectId: first (hence, ids being
unique, the only) document whose `_id` matches. -/
def findCourse (s : Store) (oid : String) : Option CourseDoc :=
  (s.courses.find? (fun p => p.1 == oid)).map (fun p => p.2)

/-- Modelled from the spec (the adapter module holding `create_document` is
not part of the sources): `create_document(collection, record)` serializes
the record to a document, inserts it into the named collection, and returns
the newly assigned identifier rendered as a string.  The store-assigned
fresh identifier is passed explicitly.  Course instance. -/
def create_document_course (s : Store) (newId : String) (c : Course) :
    String × Store :=
  (newId, { s with courses := s.courses ++ [(newId, { course := c })] })

/-- Modelled from the spec: `create_document` for the `"lesson"`
collection. -/
def create_document_lesson (s : Store) (newId : String) (l : Lesson) :
    String × Store :=
  (newId, { s with lessons := s.lessons ++ [(newId, l)] })

/-- Modelled from the spec: `create_document` for the `"order"`
collection. -/
def create_document_order (s : Store) (newId : String) (o : Order) :
    String × Store :=
  (newId, { s with orders := s.orders ++ [(newId, o)] })

/-- Modelled from the spec: `get_documents("course", filter)` — an exact-match
filter mapping (here either empty or `published = b`) selects the matching
documents, returned in store-native insertion order. -/
def get_documents_course (s : Store) (published : Option Bool) :
    List (String × CourseDoc) :=
  match published with
  | none => s.courses
  | some b => s.courses.filter (fun p => p.2.course.published == b)

/-- Modelled from the spec: `get_documents("lesson", filter)` with the
exact-match filter `course_id = cid`, in store-native insertion order. -/
def get_documents_lesson (s : Store) (cid : String) :
    List (String × Lesson) :=
  s.lessons.filter (fun p => p.2.course_id == cid)

/-- The raw JSON body of a course request, before pydantic validation:
every schema field may be present or absent. -/
structure CourseIn where
  title : Option String := none
  subtitle : Option String := none
  description : Option String := none
  price : Option Rat := none
  thumbnail_url : Option String := none
  category : Option String := none
  level : Option String := none
  published : Option Bool := none
  tags : Option (List String) := none
deriving Repr, DecidableEq

/-- Pydantic validation of a `Course` body: `title` and `price` must be
present, `price` must satisfy `ge=0`; absent optional fields take their
schema defaults.  No constraint on the contents of `title` is declared. -/
def validateCourse (raw : CourseIn) : Except ApiError Course :=
  match raw.title, raw.price with
  | some t, some p =>
    if p < 0 then .error .ValidationError
    else .ok
      { title := t
        subtitle := raw.subtitle
        description := raw.description
        price := p
        thumbnail_url := raw.thumbnail_url
        category := raw.category
        level := raw.level
        published := raw.published.getD false
        tags := raw.tags.getD [] }
  | _, _ => .error .ValidationError

/-- `POST /api/courses` (`create_course`): body validation by the framework,
then `create_document("course", course)`; returns the new id.  On a
validation error the handler is never entered and nothing is inserted. -/
def create_course (s : Store) (newId : String) (raw : CourseIn) :
    Except ApiError String × Store :=
  match validateCourse raw with
  | .error e => (.error e, s)
  | .ok course =>
    let r := create_document_course s newId course
    (.ok r.1, r.2)

/-- `GET /api/courses` (`list_courses`): optional `published` filter passed to
`get_documents`, each document's `_id` projected into the string `id`
field. -/
def list_courses (s : Store) (published : Option Bool) :
    List (String × Course) :=
  (get_documents_course s published).map (fun p => (p.1, p.2.course))

/-- `GET /api/courses/{course_id}` (`get_course`): `ObjectId` parse guarded by
`try/except` (400 on failure), `find_one` by id, 404 when absent, else the
document with its id as a string. -/
def get_course (s : Store) (course_id : String) :
    Except ApiError (String × Course) :=
  match parseObjectId course_id with
  | none => .error .InvalidIdentifier
  | some oid =>
    match findCourse s oid with
    | none => .error .NotFound
    | some doc => .ok (oid, doc.course)

/-- `update_one({_id: oid}, {$set: data})` touches the first document whose
`_id` matches, replacing it with the given stored document. -/
def setFirstCourse (l : List (String × CourseDoc)) (oid : String)
    (d : CourseDoc) : List (String × CourseDoc) :=
  match l with
  | [] => []
  | p :: rest =>
    if p.1 == oid then (p.1, d) :: rest else p :: setFirstCourse rest oid d

/-- `PATCH /api/courses/{course_id}` (`update_course`): the body is validated
against the full `Course` model, the id is parsed (400 on failure), then
`update_one` applies `$set` with `course.model_dump()` — every schema field,
the absent ones at their defaults — plus `updated_at = datetime.utcnow()`;
404 when `matched_count == 0`.  The clock is passed in as `now`. -/
def update_course (s : Store) (course_id : String) (raw : CourseIn)
    (now : Nat) : Except ApiError Store :=
  match validateCourse raw with
  | .error e => .error e
  | .ok body =>
    match parseObjectId course_id with
    | none => .error .InvalidIdentifier
    | some oid =>
      if s.courses.any (fun p => p.1 == oid) then
        .ok { s with courses :=
          setFirstCourse s.courses oid { course := body, updated_at := some now } }
      else .error .NotFound

/-- `DELETE /api/courses/{course_id}` (`delete_course`): id parse (400 on
failure), `delete_one` removes the first match, 404 when
`deleted_count == 0`. -/
def delete_course (s : Store) (course_id : String) : Except ApiError Store :=
  match parseObjectId course_id with
  | none => .error .InvalidIdentifier
  | some oid =>
    if s.courses.any (fun p => p.1 == oid) then
      .ok { s with courses := s.courses.eraseP (fun p => p.1 == oid) }
    else .error .NotFound

/-- `POST /api/courses/{course_id}/lessons` (`create_lesson`): the validated
body's `course_id` is overwritten with the path parameter, then the dict is
inserted via `create_document("lesson", data)`.  No check that the course
exists, no ObjectId parse on the path value. -/
def create_lesson (s : Store) (course_id : String) (newId : String)
    (l : Lesson) : String × Store :=
  let data := { l with course_id := course_id }
  create_document_lesson s newId data

/-- Comparison used by `result.sort(key=lambda x: x.order)`. -/
def lessonLE (a b : String × Lesson) : Bool :=
  decide (a.2.order ≤ b.2.order)

/-- `GET /api/courses/{course_id}/lessons` (`list_lessons`): fetch lessons
with `course_id` equal to the path value, project ids, then Python's stable
in-place ascending sort on the `order` field. -/
def list_lessons (s : Store) (course_id : String) : List (String × Lesson) :=
  (get_documents_lesson s course_id).mergeSort lessonLE

/-- `POST /api/orders` (`create_order`): `ObjectId(order.course_id)` is
evaluated outside any `try/except`, so a malformed id raises `InvalidId`
uncaught (a server error).  Otherwise `find_one` the course (404 when
absent), compute `amount = float(course.get("price", 0))` — stored course
documents always carry `price` — build the `Order` with `status="paid"`,
insert it, and return the new id with status `"paid"`. -/
def create_order (s : Store) (newId : String) (o : OrderIn) :
    Except ApiError (String × String) × Store :=
  match parseObjectId o.course_id with
  | none => (.error .ServerError, s)
  | some oid =>
    match findCourse s oid with
    | none => (.error .NotFound, s)
    | some course =>
      let amount := course.course.price
      let order_doc : Order :=
        { course_id := o.course_id
          buyer_name := o.buyer_name
          buyer_email := o.buyer_email
          amount := amount
          status := "paid" }
      let r := create_document_order s newId order_doc
      (.ok (r.1, "paid"), r.2)

/-- `round(x, 2)`: rounding to two decimal places. -/
def round2 (q : Rat) : Rat :=
  (round (q * 100) : Int) / 100

/-- Response model of `GET /api/admin/summary`. -/
structure AdminSummary where
  total_courses : Nat
  published_courses : Nat
  total_lessons : Nat
  total_sales : Nat
  revenue : Rat
deriving Repr, DecidableEq

/-- `GET /api/admin/summary` (`admin_summary`): `count_documents({})` on
courses, `count_documents({published: True})`, `count_documents({})` on
lessons, `count_documents({status: "paid"})` on orders, and the sum of
`float(o.get("amount", 0))` over the paid orders, rounded to two decimal
places. -/
def admin_summary (s : Store) : AdminSummary :=
  let paid := s.orders.filter (fun p => p.2.status == "paid")
  { total_courses := s.courses.length
    published_courses :=
      (s.courses.filter (fun p => p.2.course.published == true)).length
    total_lessons := s.lessons.length
    total_sales := paid.length
    revenue := round2 (paid.foldl (fun acc p => acc + p.2.amount) 0) }

/-! Concrete stores and requests used to evaluate the operations on
specific inputs. -/

/-- The empty store. -/
def emptyStore : Store := {}

/-- A valid 24-hex identifier. -/
def idA : String := "0123456789abcdef01234567"

/-- A second valid 24-hex identifier. -/
def idB : String := "aaaaaaaaaaaaaaaaaaaaaaaa"

/-- A third valid 24-hex identifier. -/
def idC : String := "bbbbbbbbbbbbbbbbbbbbbbbb"

/-- A fourth valid 24-hex identifier. -/
def idD : String := "cccccccccccccccccccccccc"

/-- A fifth valid 24-hex identifier. -/
def idE : String := "dddddddddddddddddddddddd"

/-- A course priced at 49.99, as in the spec's order example. -/
def course4999 : Course := { title := "Course", price := 49.99 }

/-- A store holding only `course4999` under `idA`. -/
def store4999 : Store := { courses := [(idA, { course := course4999 })] }

/-- An order request referencing `idA`. -/
def orderInA : OrderIn :=
  { course_id := idA, buyer_name := "Ada", buyer_email := "ada@example.com" }

/-- A stored course whose `subtitle` and `published` differ from the schema
defaults, to observe what an update leaves behind. -/
def courseWithSubtitle : Course :=
  { title := "T", subtitle := some "S", price := 5, published := true }

/-- A store holding `courseWithSubtitle` under `idA`. -/
def storeWithSubtitle : Store :=
  { courses := [(idA, { course := courseWithSubtitle })] }

/-- A patch body that provides `title` and `price` but no `subtitle`. -/
def patchBody : CourseIn := { title := some "T2", price := some 5 }

/-- The store after applying `patchBody` to `storeWithSubtitle` at time 7:
the document is replaced wholesale by the validated body plus the
timestamp. -/
def storeAfterPatch : Store :=
  { courses := [(idA,
      { course := { title := "T2", price := 5 }, updated_at := some 7 })] }

/-- The admin-summary example state: 2 courses (1 published), 3 lessons,
2 paid orders of 10.00 and 15.50. -/
def summaryStore : Store :=
  { courses :=
      [(idA, { course := { title := "A", price := 10, published := true } }),
       (idB, { course := { title := "B", price := 3 } })]
    lessons :=
      [(idC, { course_id := idA, title := "l1" }),
       (idD, { course_id := idA, title := "l2" }),
       (idE, { course_id := idB, title := "l3" })]
    orders :=
      [("e1e1e1e1e1e1e1e1e1e1e1e1",
        { course_id := idA, buyer_name := "n", buyer_email := "e",
          amount := 10, status := "paid" }),
       ("e2e2e2e2e2e2e2e2e2e2e2e2",
        { course_id := idB, buyer_name := "n", buyer_email := "e",
          amount := 15.5, status := "paid" })] }

/-- Three lessons of one course created with order values 3, 1, 2. -/
def lessonStore : Store :=
  { lessons :=
      [(idB, { course_id := idA, title := "x3", order := 3 }),
       (idC, { course_id := idA, title := "x1", order := 1 }),
       (idD, { course_id := idA, title := "x2", order := 2 })] }

/-! Helper lemmas shared by several results. -/

/-- Folding the revenue accumulator equals the accumulator plus the sum of
the amounts. -/
theorem foldl_add_amount (l : List (String × Order)) (a : Rat) :
    l.foldl (fun acc p => acc + p.2.amount) a =
      a + (l.map (fun p => p.2.amount)).sum := by
  induction l generalizing a with
  | nil => simp
  | cons x xs ih => simp [ih, add_assoc]

/-- `find_one` misses exactly when no stored id matches, i.e. when
`matched_count` (resp. `deleted_count`) of the corresponding write would
be zero. -/
theorem findCourse_eq_none_iff (s : Store) (oid : String) :
    findCourse s oid = none ↔
      s.courses.any (fun p => p.1 == oid) = false := by
  simp [findCourse, List.find?_eq_none, List.any_eq_false]

/-! Theorems settling the claims. -/

/-- C1: for every order-creation request whose `course_id` parses and matches
a stored course, `create_order` persists an `Order` whose `amount` equals the
course's stored `price` and whose `status` is `"paid"`, and returns the new
identifier together with the status `"paid"`.  The request shape `OrderIn`
has no `amount` field, so no client-supplied amount can influence the
result. -/
theorem create_order_server_amount_paid (s : Store) (newId : String)
    (o : OrderIn) (oid : String) (doc : CourseDoc)
    (hid : parseObjectId o.course_id = some oid)
    (hfind : findCourse s oid = some doc) :
    create_order s newId o =
      (.ok (newId, "paid"),
        { s with orders := s.orders ++
            [(newId,
              { course_id := o.course_id, buyer_name := o.buyer_name,
                buyer_email := o.buyer_email, amount := doc.course.price,
                status := "paid" })] }) := by
  simp [create_order, hid, hfind, create_document_order]

/-- C1 witness: ordering the course priced 49.99 records an order of amount
49.99 with status `"paid"`. -/
theorem create_order_server_amount_paid_witness :
    create_order store4999 idB orderInA =
      (.ok (idB, "paid"),
        { store4999 with orders := store4999.orders ++
            [(idB,
              { course_id := orderInA.course_id,
                buyer_name := orderInA.buyer_name,
                buyer_email := orderInA.buyer_email, amount := 49.99,
                status := "paid" })] }) :=
  create_order_server_amount_paid store4999 idB orderInA idA
    { course := course4999 } rfl rfl

/-- C2: for every store state the admin summary consists of exactly the five
aggregates — total course count, published course count, total lesson count,
paid-order count, and the paid-order amount sum rounded to two decimals —
and on the example state of 2 courses (1 published), 3 lessons and 2 paid
orders of 10.00 and 15.50 it yields the quoted values. -/
theorem admin_summary_five_aggregates (s : Store) :
    (admin_summary s).total_courses = s.courses.length ∧
    (admin_summary s).published_courses =
      (s.courses.filter (fun p => p.2.course.published == true)).length ∧
    (admin_summary s).total_lessons = s.lessons.length ∧
    (admin_summary s).total_sales =
      (s.orders.filter (fun p => p.2.status == "paid")).length ∧
    (admin_summary s).revenue =
      round2 (((s.orders.filter (fun p => p.2.status == "paid")).map
        (fun p => p.2.amount)).sum) ∧
    admin_summary summaryStore =
      { total_courses := 2, published_courses := 1, total_lessons := 3,
        total_sales := 2, revenue := 25.50 } := by
  refine ⟨rfl, rfl, rfl, rfl, ?_, ?_⟩
  · simp [admin_summary, foldl_add_amount]
  · simp only [admin_summary, summaryStore, round2]
    norm_num [round_eq]

/-- C7: listing with `published = b` returns exactly the stored courses whose
`published` field equals `b` — the full listing restricted by that
predicate — and omitting the filter returns every stored course of both
publish states. -/
theorem list_courses_published_filter (s : Store) (b : Bool) :
    list_courses s (some b) =
      (list_courses s none).filter (fun p => p.2.published == b) ∧
    list_courses s none = s.courses.map (fun p => (p.1, p.2.course)) := by
  constructor
  · simp only [list_courses, get_documents_course]
    induction s.courses with
    | nil => rfl
    | cons x xs ih =>
      by_cases h : x.2.course.published = b <;>
        simp [h, List.filter_cons, ih]
  · rfl

/-- C8: the persisted lesson stores the `course_id` taken from the request
path: the new collection state appends the body with its `course_id`
replaced by the path value, and the column of stored `course_id`s extends
the old one by exactly the path value, whatever `course_id` the body
carried. -/
theorem create_lesson_course_id_from_path (s : Store) (cid newId : String)
    (l : Lesson) :
    create_lesson s cid newId l =
      (newId,
        { s with lessons := s.lessons ++ [(newId, { l with course_id := cid })] }) ∧
    ((create_lesson s cid newId l).2.lessons.map (fun p => p.2.course_id)) =
      s.lessons.map (fun p => p.2.course_id) ++ [cid] := by
  refine ⟨rfl, ?_⟩
  simp [create_lesson, create_document_lesson]

/-- C4: for every syntactically invalid identifier string, fetching,
updating (with a body that validates) and deleting a course all fail with
`InvalidIdentifier`, an error distinct from `NotFound`; for every
syntactically valid identifier matching no stored course, the same three
operations fail with `NotFound`. -/
theorem course_ops_identifier_errors (s : Store) (cid : String)
    (raw : CourseIn) (c : Course) (now : Nat)
    (hraw : validateCourse raw = .ok c) :
    (isValidObjectId cid = false →
      get_course s cid = .error .InvalidIdentifier ∧
      update_course s cid raw now = .error .InvalidIdentifier ∧
      delete_course s cid = .error .InvalidIdentifier ∧
      ApiError.InvalidIdentifier ≠ ApiError.NotFound) ∧
    (isValidObjectId cid = true → findCourse s (toLowerStr cid) = none →
      get_course s cid = .error .NotFound ∧
      update_course s cid raw now = .error .NotFound ∧
      delete_course s cid = .error .NotFound) := by
  constructor
  · intro h
    refine ⟨?_, ?_, ?_, by decide⟩ <;>
      simp [get_course, update_course, delete_course, parseObjectId, h, hraw]
  · intro h hnone
    have hany := (findCourse_eq_none_iff s (toLowerStr cid)).mp hnone
    refine ⟨?_, ?_, ?_⟩ <;>
      simp [get_course, update_course, delete_course, parseObjectId, h,
        hraw, hnone, hany]

/-- C4 witness: on the empty store, `"x"` is rejected as a malformed
identifier while the well-formed but unmatched `idA` yields `NotFound`, for
each of the three operations. -/
theorem course_ops_identifier_errors_witness :
    get_course emptyStore "x" = .error .InvalidIdentifier ∧
    update_course emptyStore "x" patchBody 0 = .error .InvalidIdentifier ∧
    delete_course emptyStore "x" = .error .InvalidIdentifier ∧
    get_course emptyStore idA = .error .NotFound ∧
    update_course emptyStore idA patchBody 0 = .error .NotFound ∧
    delete_course emptyStore idA = .error .NotFound := by
  have h1 := course_ops_identifier_errors emptyStore "x" patchBody
    { title := "T2", price := 5 } 0 rfl
  have h2 := course_ops_identifier_errors emptyStore idA patchBody
    { title := "T2", price := 5 } 0 rfl
  obtain ⟨ha, -, hb, -⟩ := h1.1 rfl
  obtain ⟨hc, hd, he⟩ := h2.2 rfl rfl
  exact ⟨ha, (h1.1 rfl).2.1, hb, hc, hd, he⟩

/-- C5 counterexample: the request whose `course_id` is the malformed string
`"x"` references no existing course, yet order creation surfaces an uncaught
parse exception (a server error), not `NotFound`. -/
theorem create_order_missing_course_counterexample :
    (create_order emptyStore idB
        { course_id := "x", buyer_name := "n", buyer_email := "e" }).1 =
      .error .ServerError ∧
    ApiError.ServerError ≠ ApiError.NotFound :=
  ⟨rfl, by decide⟩

/-- C5 amended: for every order request whose `course_id` is a syntactically
valid identifier matching no stored course, creation fails with `NotFound`
and the store is left unchanged — no order document is persisted. -/
theorem create_order_valid_missing_course (s : Store) (newId : String)
    (o : OrderIn) (hvalid : isValidObjectId o.course_id = true)
    (hnone : findCourse s (toLowerStr o.course_id) = none) :
    create_order s newId o = (.error .NotFound, s) := by
  simp [create_order, parseObjectId, hvalid, hnone]

/-- C5 witness: ordering `idA` on the empty store yields `NotFound` and
leaves the store empty. -/
theorem create_order_valid_missing_course_witness :
    create_order emptyStore idB orderInA = (.error .NotFound, emptyStore) :=
  create_order_valid_missing_course emptyStore idB orderInA rfl rfl

/-- C10: for every order request whose `course_id` is not a syntactically
valid identifier, `create_order` surfaces the uncaught `ObjectId` parse
exception as a server error — neither `NotFound` nor `InvalidIdentifier` —
and persists nothing, whereas `get_course` on the same string returns the
handled `InvalidIdentifier` error. -/
theorem create_order_malformed_id_uncaught (s : Store) (newId : String)
    (o : OrderIn) (h : isValidObjectId o.course_id = false) :
    create_order s newId o = (.error .ServerError, s) ∧
    ApiError.ServerError ≠ ApiError.NotFound ∧
    ApiError.ServerError ≠ ApiError.InvalidIdentifier ∧
    get_course s o.course_id = .error .InvalidIdentifier := by
  refine ⟨?_, by decide, by decide, ?_⟩ <;>
    simp [create_order, get_course, parseObjectId, h]

/-- C10 witness: the malformed id `"x"` yields the server error at order
creation and the handled 400 at course fetch, on the empty store. -/
theorem create_order_malformed_id_uncaught_witness :
    create_order emptyStore idB
        { course_id := "x", buyer_name := "n", buyer_email := "e" } =
      (.error .ServerError, emptyStore) ∧
    get_course emptyStore "x" = .error .InvalidIdentifier := by
  have h := create_order_malformed_id_uncaught emptyStore idB
    { course_id := "x", buyer_name := "n", buyer_email := "e" } rfl
  exact ⟨h.1, h.2.2.2⟩

/-- The lesson comparison is transitive. -/
theorem lessonLE_trans : ∀ (a b c : String × Lesson),
    lessonLE a b → lessonLE b c → lessonLE a c := by
  intro a b c hab hbc
  simp only [lessonLE, decide_eq_true_eq] at hab hbc ⊢
  omega

/-- The lesson comparison is total. -/
theorem lessonLE_total : ∀ (a b : String × Lesson),
    lessonLE a b || lessonLE b a := by
  intro a b
  simp only [lessonLE, Bool.or_eq_true, decide_eq_true_eq]
  omega

unseal List.merge List.mergeSort in
/-- C3: listing a course's lessons returns exactly the stored lessons whose
`course_id` equals the given value (a permutation of that filtered
sequence), sorted ascending by `order`; the sort is stable, so within each
tied `order` value the store-native retrieval order is preserved; lessons
created with order values 3, 1, 2 come back as 1, 2, 3. -/
theorem list_lessons_sorted_by_order (s : Store) (cid : String) :
    (list_lessons s cid).Perm
      (s.lessons.filter (fun p => p.2.course_id == cid)) ∧
    (list_lessons s cid).Pairwise (fun a b => a.2.order ≤ b.2.order) ∧
    (∀ k : Int,
      (list_lessons s cid).filter (fun p => p.2.order == k) =
        (s.lessons.filter (fun p => p.2.course_id == cid)).filter
          (fun p => p.2.order == k)) ∧
    (list_lessons lessonStore idA).map (fun p => p.2.order) = [1, 2, 3] := by
  refine ⟨?_, ?_, ?_, rfl⟩
  · exact List.mergeSort_perm (get_documents_lesson s cid) lessonLE
  · have h := @List.sorted_mergeSort _ lessonLE lessonLE_trans
      lessonLE_total (get_documents_lesson s cid)
    exact h.imp (fun hab => by
      simpa only [lessonLE, decide_eq_true_eq] using hab)
  · intro k
    show ((get_documents_lesson s cid).mergeSort lessonLE).filter
        (fun p => p.2.order == k) = _
    set dl := get_documents_lesson s cid with hdl
    have hpw : (dl.filter (fun p => p.2.order == k)).Pairwise
        (fun a b => lessonLE a b) := by
      apply List.pairwise_of_forall_mem_list
      intro a ha b hb
      have h1 := List.of_mem_filter ha
      have h2 := List.of_mem_filter hb
      simp only [beq_iff_eq] at h1 h2
      simp [lessonLE, h1, h2]
    have h1 : List.Sublist (dl.filter (fun p => p.2.order == k))
        (dl.mergeSort lessonLE) :=
      List.sublist_mergeSort lessonLE_trans lessonLE_total hpw
        (List.filter_sublist dl)
    have h2 := h1.filter (fun p => p.2.order == k)
    rw [List.filter_filter] at h2
    have h3 : ((dl.mergeSort lessonLE).filter (fun p => p.2.order == k)).length =
        (dl.filter (fun p => p.2.order == k)).length :=
      ((dl.mergeSort_perm lessonLE).filter _).length_eq
    have h4 : List.Sublist (dl.filter (fun p => p.2.order == k))
        ((dl.mergeSort lessonLE).filter (fun p => p.2.order == k)) := by
      simpa using h2
    exact (h4.eq_of_length (by omega)).symm

/-- A successful `find_one` means at least one stored id matches. -/
theorem any_of_findCourse_some (s : Store) (oid : String) (doc : CourseDoc)
    (h : findCourse s oid = some doc) :
    s.courses.any (fun p => p.1 == oid) = true := by
  cases hb : s.courses.any (fun p => p.1 == oid) with
  | true => rfl
  | false => rw [(findCourse_eq_none_iff s oid).mpr hb] at h; cases h

/-- After `update_one` replaces the first matching document, `find_one` on
the same id retrieves the replacement. -/
theorem find?_setFirstCourse (l : List (String × CourseDoc)) (oid : String)
    (d : CourseDoc) (h : l.any (fun p => p.1 == oid) = true) :
    ((setFirstCourse l oid d).find? (fun p => p.1 == oid)).map
      (fun p => p.2) = some d := by
  induction l with
  | nil => simp at h
  | cons x xs ih =>
    by_cases hx : (x.1 == oid) = true
    · simp [setFirstCourse, hx, List.find?]
    · have h' : xs.any (fun p => p.1 == oid) = true := by
        simpa [List.any_cons, hx] using h
      simp only [setFirstCourse, hx, if_false, Bool.false_eq_true]
      rw [List.find?]
      simp only [hx]
      exact ih h'

/-- C6 counterexample: the patch body provides only `title` and `price`; the
stored course's `subtitle` (`"S"`) and `published` (`true`) were not
provided in the request, yet after the update the stored document holds the
schema defaults `none` and `false` — fields absent from the request do not
remain unchanged. -/
theorem update_course_not_partial_counterexample :
    patchBody.subtitle = none ∧ patchBody.published = none ∧
    (findCourse storeWithSubtitle idA).map (fun d => d.course.subtitle) =
      some (some "S") ∧
    (findCourse storeWithSubtitle idA).map (fun d => d.course.published) =
      some true ∧
    update_course storeWithSubtitle idA patchBody 7 = .ok storeAfterPatch ∧
    (findCourse storeAfterPatch idA).map (fun d => d.course.subtitle) =
      some none ∧
    (findCourse storeAfterPatch idA).map (fun d => d.course.published) =
      some false :=
  ⟨rfl, rfl, rfl, rfl, rfl, rfl, rfl⟩

/-- C6 amended: update validates the body against the full `Course` model
(`title` and `price` must be present), parses the identifier, and replaces
the matched stored document wholesale with the validated body — fields
omitted from the request are reset to their schema defaults — plus the
server-stamped `updated_at` timestamp; afterwards `find_one` retrieves
exactly the body-plus-timestamp document. -/
theorem update_course_full_replacement (s : Store) (cid : String)
    (raw : CourseIn) (now : Nat) (c : Course) (oid : String) (doc : CourseDoc)
    (hraw : validateCourse raw = .ok c)
    (hid : parseObjectId cid = some oid)
    (hfound : findCourse s oid = some doc) :
    update_course s cid raw now =
      .ok { s with courses :=
        (setFirstCourse s.courses oid
          { course := c, updated_at := some now }) } ∧
    findCourse { s with courses :=
        (setFirstCourse s.courses oid
          { course := c, updated_at := some now }) } oid =
      some { course := c, updated_at := some now } := by
  have hany := any_of_findCourse_some s oid doc hfound
  constructor
  · simp [update_course, hraw, hid, hany]
  · simpa [findCourse] using
      find?_setFirstCourse s.courses oid
        { course := c, updated_at := some now } hany

/-- C6 amended witness: patching the stored course replaces it by the body
plus the timestamp. -/
theorem update_course_full_replacement_witness :
    update_course storeWithSubtitle idA patchBody 7 =
      .ok { storeWithSubtitle with courses :=
        (setFirstCourse storeWithSubtitle.courses idA
          { course := { title := "T2", price := 5 },
            updated_at := some 7 }) } :=
  (update_course_full_replacement storeWithSubtitle idA patchBody 7
    { title := "T2", price := 5 } idA { course := courseWithSubtitle }
    rfl rfl rfl).1

/-- C9 counterexample: the schema declares no non-emptiness constraint on
`title`: a creation request with the empty-string title passes validation
and a document is persisted, rather than being rejected. -/
theorem create_course_empty_title_accepted :
    create_course emptyStore idB { title := some "", price := some 1 } =
      (.ok idB,
        { emptyStore with courses :=
            [(idB, { course := { title := "", price := 1 } })] }) := rfl

/-- C9 amended: `title` and `price` are required and `price` must be
non-negative; a request missing either field or carrying a negative price
fails with `ValidationError` (422) and no document is created, while a
request providing a title (any string, the empty one included) and a
non-negative price persists exactly the validated course. -/
theorem create_course_schema_rules (s : Store) (newId : String)
    (raw : CourseIn) :
    ((raw.title = none ∨ raw.price = none ∨
        (∃ p, raw.price = some p ∧ p < 0)) →
      create_course s newId raw = (.error .ValidationError, s)) ∧
    (∀ t p, raw.title = some t → raw.price = some p → 0 ≤ p →
      create_course s newId raw =
        (.ok newId, { s with courses := s.courses ++
          [(newId,
            { course :=
              { title := t, subtitle := raw.subtitle,
                description := raw.description, price := p,
                thumbnail_url := raw.thumbnail_url,
                category := raw.category, level := raw.level,
                published := raw.published.getD false,
                tags := raw.tags.getD [] } })] })) := by
  constructor
  · intro h
    rcases ht : raw.title with _ | t
    · rcases hp : raw.price with _ | p <;>
        simp [create_course, validateCourse, ht, hp]
    · rcases hp : raw.price with _ | p
      · simp [create_course, validateCourse, ht, hp]
      · have hneg : p < 0 := by
          rcases h with h | h | ⟨q, hq, hqneg⟩
          · rw [ht] at h; cases h
          · rw [hp] at h; cases h
          · rw [hp] at hq
            injection hq with hq'
            exact hq' ▸ hqneg
        simp [create_course, validateCourse, ht, hp, hneg]
  · intro t p ht hp hpos
    simp [create_course, validateCourse, ht, hp, not_lt.mpr hpos,
      create_document_course]

/-- C9 amended witness: the empty request body (no title, no price) is
rejected with a validation error and the store stays empty. -/
theorem create_course_schema_rules_witness :
    create_course emptyStore idB { } = (.error .ValidationError, emptyStore) :=
  (create_course_schema_rules emptyStore idB { }).1 (Or.inl rfl)

end CourseApi
